import Mathlib

/-!
Verification of the Shuttle VFD LEDs driver (src/shuttle_leds.c) against its
natural-language specification.

The driver controls a 20x1 character vacuum-fluorescent display with 15 binary
icons and one 12-level volume icon.  Every message to the device is one 8-byte
packet: a command nibble and a length nibble in byte 0, followed by 7 data
bytes.  The embedding below follows the C source function by function; machine
integers are modelled as Nat, with the bitwise operators of the source kept as
Nat bitwise operators.
-/

namespace ShuttleLeds

/-- SHUTTLE_VFD_WIDTH (shuttle_leds.c line 48): display width in characters. -/
def SHUTTLE_VFD_WIDTH : Nat := 20

/-- SHUTTLE_VFD_PACKET_SIZE (line 52): size of one USB control message. -/
def SHUTTLE_VFD_PACKET_SIZE : Nat := 8

/-- SHUTTLE_VFD_DATA_SIZE (line 53): number of data bytes per packet. -/
def SHUTTLE_VFD_DATA_SIZE : Nat := SHUTTLE_VFD_PACKET_SIZE - 1

/-- NUM_LEDS (line 58): number of binary icons (volume excluded). -/
def NUM_LEDS : Nat := 15

/-- SHUTTLE_VFD_ICON_VOL (line 59): places a volume level at bit 15 and up. -/
def SHUTTLE_VFD_ICON_VOL (x : Nat) : Nat := x <<< 15

/-- SHUTTLE_VFD_ICON_VOL_NUM (line 60): documented maximal volume level. -/
def SHUTTLE_VFD_ICON_VOL_NUM : Nat := 12

/-- SHUTTLE_VFD_BASE_MASK (line 61): mask of the 15 binary-icon bits. -/
def SHUTTLE_VFD_BASE_MASK : Nat := 0x7FFF

/-- LED_OFF of the Linux LED framework: brightness value 0. -/
def LED_OFF : Nat := 0

/-- Function vfd_set_icons (lines 143-152): zeroes the 8-byte packet buffer,
writes the header byte (7 shifted left by 4) plus 4, fills the four data bytes
with the four 5-bit groups of icons_mask, and hands the packet to
vfd_send_packet.  Modelled as the packet value reaching the transport. -/
def vfd_set_icons (icons_mask : Nat) : List Nat :=
  [(7 <<< 4) + 4,
   (icons_mask >>> 15) &&& 0x1F,
   (icons_mask >>> 10) &&& 0x1F,
   (icons_mask >>> 5) &&& 0x1F,
   icons_mask &&& 0x1F,
   0, 0, 0]

/-- Function vfd_reset_cursor (lines 130-141): zeroes the 8-byte packet buffer,
writes the header byte (1 shifted left by 4) plus 1, then data byte 1 for a
full clear of text and icons, or data byte 2 for a reset of the text cursor
only, and hands the packet to vfd_send_packet.  Modelled as that packet. -/
def vfd_reset_cursor (eraseall : Bool) : List Nat :=
  [(1 <<< 4) + 1, if eraseall then 1 else 2, 0, 0, 0, 0, 0, 0]

/-- Function vfd_set_text (lines 154-173): walks the screen buffer in groups
of SHUTTLE_VFD_DATA_SIZE bytes, sending one full text packet per complete
group; then, when len is not a multiple of SHUTTLE_VFD_DATA_SIZE, zeroes the
packet buffer and sends one final packet carrying the remaining bytes,
zero-padded to the full data size.  Modelled as the list of packets handed to
vfd_send_packet, in order. -/
def vfd_set_text (screen : List Nat) (len : Nat) : List (List Nat) :=
  (List.range (len / SHUTTLE_VFD_DATA_SIZE)).map (fun i =>
    ((9 <<< 4) + SHUTTLE_VFD_DATA_SIZE) ::
      ((screen.drop (i * SHUTTLE_VFD_DATA_SIZE)).take SHUTTLE_VFD_DATA_SIZE)) ++
  (if len % SHUTTLE_VFD_DATA_SIZE ≠ 0 then
    [((9 <<< 4) + len % SHUTTLE_VFD_DATA_SIZE) ::
      ((screen.drop (len / SHUTTLE_VFD_DATA_SIZE * SHUTTLE_VFD_DATA_SIZE)).take
          (len % SHUTTLE_VFD_DATA_SIZE) ++
        List.replicate (SHUTTLE_VFD_DATA_SIZE - len % SHUTTLE_VFD_DATA_SIZE) 0)]
  else [])

/-- Result of one text write: the new screen buffer, the packets handed to the
transport in order, and the value returned to the caller. -/
structure TextWriteResult where
  screen : List Nat
  sent : List (List Nat)
  retval : Nat

/-- Function set_vfd_text_handler (lines 176-193): when count is below the
display width the screen buffer is zero-filled first; then the minimum of
count and the width bytes of the caller buffer are copied in at position 0;
vfd_reset_cursor false and vfd_set_text over the full width run next; count is
returned to the caller unconditionally. -/
def set_vfd_text_handler (screen buf : List Nat) (count : Nat) : TextWriteResult :=
  let screen1 :=
    if count < SHUTTLE_VFD_WIDTH then List.replicate SHUTTLE_VFD_WIDTH 0 else screen
  let l := min count SHUTTLE_VFD_WIDTH
  let screen2 := buf.take l ++ screen1.drop l
  { screen := screen2
    sent := vfd_reset_cursor false :: vfd_set_text screen2 SHUTTLE_VFD_WIDTH
    retval := count }

/-- Trim loop of get_vfd_text_handler (lines 206-207): starting at index sz
minus one the loop walks left over NUL (0) and newline (10) bytes and stops at
the first other byte, yielding the trimmed size.  When sz reaches 0 the C code
evaluates buf at index minus one, an access outside the copied region; that
case is modelled as none. -/
def trim_loop (buf : List Nat) : Nat → Option Nat
  | 0 => none
  | sz + 1 =>
    if buf.getD sz 0 = 0 ∨ buf.getD sz 0 = 10 then trim_loop buf sz
    else some (sz + 1)

/-- Function get_vfd_text_handler (lines 196-211): copies the 20-byte screen
into the output buffer, trims trailing NUL and newline bytes with the loop
above, stores one newline at the trimmed end and returns the trimmed size plus
one.  Yields the returned bytes and the returned size, or none when the trim
loop underflows. -/
def get_vfd_text_handler (screen : List Nat) : Option (List Nat × Nat) :=
  match trim_loop screen SHUTTLE_VFD_WIDTH with
  | none => none
  | some sz => some (screen.take sz ++ [10], sz + 1)

/-- Function vfd_led_generic_set (lines 213-224): for a brightness other than
LED_OFF the single-bit mask of the led is ored into icons_mask; for LED_OFF
the code performs a bitwise and with the complement of that mask on the
unsigned long, which clears exactly the bits of the mask; on Nat that
operation is Nat.ldiff.  Returns the new icons_mask; the function then sends
vfd_set_icons of that mask. -/
def vfd_led_generic_set (icons_mask mask value : Nat) : Nat :=
  if value ≠ LED_OFF then icons_mask ||| mask else Nat.ldiff icons_mask mask

/-- Function vfd_led_volume_set (lines 226-235): keeps only the
SHUTTLE_VFD_BASE_MASK bits of icons_mask, then for a brightness other than
LED_OFF ors in SHUTTLE_VFD_ICON_VOL of the raw value.  Returns the new
icons_mask; the function then sends vfd_set_icons of that mask. -/
def vfd_led_volume_set (icons_mask value : Nat) : Nat :=
  let m := icons_mask &&& SHUTTLE_VFD_BASE_MASK
  if value ≠ LED_OFF then m ||| SHUTTLE_VFD_ICON_VOL value else m

/-- One atomic step of a set_brightness operation, as executed by the code:
rmwMask is the read-modify-write of icons_mask in vfd_led_generic_set or
vfd_led_volume_set (lines 218-221 and 231-233), buildPacket the packet
construction in vfd_set_icons (lines 145-150), lockAcquire the mutex_lock in
vfd_send_packet (line 108), sendUsb the usb_control_msg call (lines 109-117),
sleepPacing the msleep of 24 ms (line 121), lockRelease the mutex_unlock
(line 123). -/
inductive Action where
  | rmwMask
  | buildPacket
  | lockAcquire
  | sendUsb
  | sleepPacing
  | lockRelease
deriving DecidableEq

/-- Step sequence of one set_brightness call on any of the 16 led endpoints,
in source order: the brightness callback mutates icons_mask, vfd_set_icons
builds the packet, and only then vfd_send_packet acquires the per-device
mutex, performs the transfer, sleeps 24 ms and releases the mutex. -/
def set_brightness_trace : List Action :=
  [Action.rmwMask, Action.buildPacket, Action.lockAcquire,
   Action.sendUsb, Action.sleepPacing, Action.lockRelease]

/-- The per-device mutex is held when step i of a trace starts: strictly more
acquisitions than releases occur among the steps before i. -/
def underMutex (tr : List Action) (i : Nat) : Bool :=
  (tr.take i).count Action.lockRelease < (tr.take i).count Action.lockAcquire

/-- Statement of claim C1 on the step trace: the read-modify-write of
icons_mask, the packet build and the packet send all execute with the
per-device mutex held. -/
def rmw_build_send_under_mutex : Prop :=
  ∀ i < set_brightness_trace.length,
    (set_brightness_trace.getD i Action.lockRelease = Action.rmwMask ∨
     set_brightness_trace.getD i Action.lockRelease = Action.buildPacket ∨
     set_brightness_trace.getD i Action.lockRelease = Action.sendUsb) →
    underMutex set_brightness_trace i = true

/-- Error reporting of vfd_send_packet (lines 124-125): one dev_err line is
printed for each send whose transport result is negative; the result is
returned to the immediate caller, but every caller of vfd_send_packet in the
driver discards it (lines 140, 151, 163, 171), and exactly one
usb_control_msg is issued per packet, with no retry.  Given the packets of
one operation and the transport result of each send in order, this counts the
dev_err lines the operation prints. -/
def run_transport (sent : List (List Nat)) (outcomes : Nat → Int) : Nat :=
  ((List.range sent.length).filter (fun i => outcomes i < 0)).length

/-- Byte values of the eight characters of the string used by the padding and
trimming test cases of the specification: t e s t space 1 2 3. -/
def test123 : List Nat := [116, 101, 115, 116, 32, 49, 50, 51]

/-- Specification-side trimming: the list with all trailing NUL (0) and
newline (10) bytes removed.  Used to state what the read operation is claimed
to return. -/
def rstrip (l : List Nat) : List Nat :=
  (l.reverse.dropWhile (fun b => b == 0 || b == 10)).reverse

/-- Helper: masking with 0x1F is reduction modulo 2 to the 5. -/
lemma and_0x1F_eq_mod (x : Nat) : x &&& 0x1F = x % 2 ^ 5 :=
  Nat.and_pow_two_sub_one_eq_mod x 5

/-- Helper: masking with 0x7FFF is reduction modulo 2 to the 15. -/
lemma and_0x7FFF_eq_mod (x : Nat) : x &&& 0x7FFF = x % 2 ^ 15 :=
  Nat.and_pow_two_sub_one_eq_mod x 15

/-- Helper: a value already masked to 5 bits has its top 3 bits zero. -/
lemma and_0x1F_and_0xE0 (x : Nat) : (x &&& 0x1F) &&& 0xE0 = 0 := by
  have h : (0x1F : Nat) &&& 0xE0 = 0 := by decide
  rw [Nat.and_assoc, h, Nat.and_zero]

/-- C2: for every mask value, the icons-encoding operation produces exactly one
8-byte packet whose first byte has command nibble 7 and length nibble 4, whose
four data bytes hold the four 5-bit groups of the mask (bits 15-19, 10-14, 5-9,
0-4, in that order) so each data byte has its upper 3 bits zero, and for mask 0
all four data bytes are 0. -/
theorem C2_encode_icons_shape (mask : Nat) :
    (vfd_set_icons mask).length = SHUTTLE_VFD_PACKET_SIZE ∧
    (vfd_set_icons mask).getD 0 0 >>> 4 = 7 ∧
    (vfd_set_icons mask).getD 0 0 &&& 0xF = 4 ∧
    (vfd_set_icons mask).getD 1 0 = mask / 2 ^ 15 % 2 ^ 5 ∧
    (vfd_set_icons mask).getD 2 0 = mask / 2 ^ 10 % 2 ^ 5 ∧
    (vfd_set_icons mask).getD 3 0 = mask / 2 ^ 5 % 2 ^ 5 ∧
    (vfd_set_icons mask).getD 4 0 = mask % 2 ^ 5 ∧
    (vfd_set_icons mask).getD 1 0 &&& 0xE0 = 0 ∧
    (vfd_set_icons mask).getD 2 0 &&& 0xE0 = 0 ∧
    (vfd_set_icons mask).getD 3 0 &&& 0xE0 = 0 ∧
    (vfd_set_icons mask).getD 4 0 &&& 0xE0 = 0 ∧
    vfd_set_icons 0 = [(7 <<< 4) + 4, 0, 0, 0, 0, 0, 0, 0] := by
  refine ⟨rfl, ?_, ?_, ?_, ?_, ?_, ?_,
    and_0x1F_and_0xE0 _, and_0x1F_and_0xE0 _, and_0x1F_and_0xE0 _,
    and_0x1F_and_0xE0 _, by decide⟩
  · show ((7 <<< 4) + 4 : Nat) >>> 4 = 7
    decide
  · show ((7 <<< 4) + 4 : Nat) &&& 0xF = 4
    decide
  · show (mask >>> 15) &&& 0x1F = mask / 2 ^ 15 % 2 ^ 5
    rw [Nat.shiftRight_eq_div_pow, and_0x1F_eq_mod]
  · show (mask >>> 10) &&& 0x1F = mask / 2 ^ 10 % 2 ^ 5
    rw [Nat.shiftRight_eq_div_pow, and_0x1F_eq_mod]
  · show (mask >>> 5) &&& 0x1F = mask / 2 ^ 5 % 2 ^ 5
    rw [Nat.shiftRight_eq_div_pow, and_0x1F_eq_mod]
  · exact and_0x1F_eq_mod mask

/-- C1 counterexample: the claim that every set_brightness operation performs
the read-modify-write of icons_mask, the packet build and the packet send
inside one critical section under the per-device mutex is false on the code:
in the step trace of a set_brightness call the mask mutation (step 0) and the
packet build (step 1) execute before the mutex_lock of vfd_send_packet. -/
theorem C1_counterexample : ¬ rmw_build_send_under_mutex := by
  unfold rmw_build_send_under_mutex
  decide

/-- C1 (amended): in a set_brightness operation only the usb transfer and the
24 ms pacing sleep of vfd_send_packet execute with the per-device mutex held;
the read-modify-write of icons_mask and the building of the packet execute
before the mutex is acquired, so individual packet sends are serialized but
the mask update and packet build are outside the critical section. -/
theorem C1_mutex_covers_send_only :
    set_brightness_trace.getD 0 Action.lockRelease = Action.rmwMask ∧
    underMutex set_brightness_trace 0 = false ∧
    set_brightness_trace.getD 1 Action.lockRelease = Action.buildPacket ∧
    underMutex set_brightness_trace 1 = false ∧
    set_brightness_trace.getD 3 Action.lockRelease = Action.sendUsb ∧
    underMutex set_brightness_trace 3 = true ∧
    set_brightness_trace.getD 4 Action.lockRelease = Action.sleepPacing ∧
    underMutex set_brightness_trace 4 = true := by
  decide

/-- C9 counterexample: the claim that a transport failure is surfaced to the
caller as an operation failure is false on the code: writing the 8 bytes of
test 123 with every transport send failing with code -19 produces four failed
sends, each logged by dev_err, yet the handler still returns 8, the full
count, exactly as on success. -/
theorem C9_counterexample :
    run_transport (set_vfd_text_handler (List.replicate 20 0) test123 8).sent
        (fun _ => -19) = 4 ∧
    (set_vfd_text_handler (List.replicate 20 0) test123 8).retval = 8 := by
  decide

/-- C9 (amended): when a transport send fails the error is logged by dev_err
once per failing send, the send is not retried (a text write always issues
exactly four sends, whatever the outcomes), and the locally applied state is
not rolled back; however the failure is not surfaced to the caller of the
operation: the text write handler returns count unconditionally. -/
theorem C9_error_path (screen buf : List Nat) (count : Nat) (outcomes : Nat → Int) :
    (set_vfd_text_handler screen buf count).retval = count ∧
    (set_vfd_text_handler screen buf count).sent.length = 4 ∧
    run_transport (set_vfd_text_handler screen buf count).sent outcomes =
      ((List.range 4).filter (fun i => outcomes i < 0)).length := by
  have hlen : (set_vfd_text_handler screen buf count).sent.length = 4 := rfl
  exact ⟨rfl, hlen, by rw [run_transport, hlen]⟩

/-- C10: evaluation of the trim loop of get_vfd_text_handler at the failing
input, the all-NUL screen buffer that exists right after device attach: the
loop trims all 20 bytes, reaches index 0 and then evaluates the output buffer
at index minus one, an access outside the copied region (modelled as none),
contradicting the claim that the loop index never decrements below 1. -/
theorem C10_trim_loop_underflow :
    trim_loop (List.replicate SHUTTLE_VFD_WIDTH 0) SHUTTLE_VFD_WIDTH = none ∧
    get_vfd_text_handler (List.replicate SHUTTLE_VFD_WIDTH 0) = none := by
  decide

/-- C6 counterexample: the claim that the read operation returns the buffer
with trailing NUL and newline bytes trimmed and one newline appended for every
screen-buffer state is false on the code: on the all-NUL buffer the claim
predicts the 1-byte result newline, but the trim loop underflows instead
(modelled as none). -/
theorem C6_counterexample :
    get_vfd_text_handler (List.replicate SHUTTLE_VFD_WIDTH 0) ≠ some ([10], 1) := by
  decide

/-- Helper: a text write of fewer bytes than the width zero-fills the screen
and copies the caller bytes at position 0, so the new screen is the caller
buffer extended with zero bytes to the full width. -/
lemma set_vfd_text_handler_screen_short (screen buf : List Nat) (count : Nat)
    (h2 : buf.length = count) (h3 : count < SHUTTLE_VFD_WIDTH) :
    (set_vfd_text_handler screen buf count).screen =
      buf ++ List.replicate (SHUTTLE_VFD_WIDTH - count) 0 := by
  unfold set_vfd_text_handler
  have hmin : min count SHUTTLE_VFD_WIDTH = count := Nat.min_eq_left (Nat.le_of_lt h3)
  simp only [if_pos h3, hmin, List.drop_replicate]
  rw [← h2, List.take_length]

/-- Helper: after any text write the screen buffer has exactly the display
width. -/
lemma set_vfd_text_handler_screen_length (screen buf : List Nat) (count : Nat)
    (h1 : screen.length = SHUTTLE_VFD_WIDTH) (h2 : buf.length = count) :
    (set_vfd_text_handler screen buf count).screen.length = SHUTTLE_VFD_WIDTH := by
  unfold set_vfd_text_handler
  by_cases h3 : count < SHUTTLE_VFD_WIDTH
  · simp only [if_pos h3, List.length_append, List.length_take, List.length_drop,
      List.length_replicate, h2]
    unfold SHUTTLE_VFD_WIDTH at h3 ⊢
    omega
  · simp only [if_neg h3, List.length_append, List.length_take, List.length_drop, h1, h2]
    unfold SHUTTLE_VFD_WIDTH at h3 ⊢
    omega

/-- C5: a text write of count bytes with count below 20 zero-fills the 20-byte
screen buffer and then copies the count input bytes in from position 0, and
after every write the buffer is a full 20-byte value, left-justified with zero
padding on the right; in particular writing the 8 bytes of test 123 leaves the
buffer equal to those bytes followed by 12 zero bytes, whatever the previous
screen content. -/
theorem C5_text_padding (screen buf : List Nat) (count : Nat)
    (h1 : screen.length = SHUTTLE_VFD_WIDTH) (h2 : buf.length = count) :
    (set_vfd_text_handler screen buf count).screen.length = SHUTTLE_VFD_WIDTH ∧
    (count < SHUTTLE_VFD_WIDTH →
      (set_vfd_text_handler screen buf count).screen =
        buf ++ List.replicate (SHUTTLE_VFD_WIDTH - count) 0) ∧
    (set_vfd_text_handler screen test123 8).screen = test123 ++ List.replicate 12 0 := by
  refine ⟨set_vfd_text_handler_screen_length screen buf count h1 h2,
    fun h3 => set_vfd_text_handler_screen_short screen buf count h2 h3, ?_⟩
  have h := set_vfd_text_handler_screen_short screen test123 8 (by decide) (by decide)
  simpa using h

/-- C5 witness: the padding theorem applied at the concrete previous screen of
20 bytes of value 7 and the 8-byte test 123 buffer. -/
theorem C5_text_padding_witness :
    (List.replicate 20 7 : List Nat).length = SHUTTLE_VFD_WIDTH ∧
    test123.length = 8 ∧
    (set_vfd_text_handler (List.replicate 20 7) test123 8).screen =
      test123 ++ List.replicate 12 0 :=
  ⟨by decide, by decide,
    (C5_text_padding (List.replicate 20 7) test123 8 (by decide) (by decide)).2.2⟩

/-- Helper: over the full 20-byte width, vfd_set_text produces exactly the two
full 7-byte chunk packets followed by the zero-padded 6-byte final packet. -/
lemma vfd_set_text_twenty (s : List Nat) :
    vfd_set_text s SHUTTLE_VFD_WIDTH =
      [((9 <<< 4) + 7) :: s.take 7,
       ((9 <<< 4) + 7) :: (s.drop 7).take 7,
       ((9 <<< 4) + 6) :: ((s.drop 14).take 6 ++ [0])] := by
  unfold vfd_set_text SHUTTLE_VFD_DATA_SIZE SHUTTLE_VFD_PACKET_SIZE SHUTTLE_VFD_WIDTH
  norm_num [List.range_succ]

/-- C4: every text write sends, in this exact order, one clear packet with
command nibble 1, length nibble 1 and data byte 2 (cursor reset only, not the
full erase), then exactly 3 text packets with command nibble 9 and length
nibbles 7, 7 and 6, carrying consecutive slices of the 20-byte screen buffer,
the last packet zero-padded to 7 data bytes; every packet is 8 bytes. -/
theorem C4_text_write_packet_sequence (screen buf : List Nat) (count : Nat)
    (h1 : screen.length = SHUTTLE_VFD_WIDTH) (h2 : buf.length = count) :
    (set_vfd_text_handler screen buf count).sent =
      [(1 <<< 4) + 1, 2, 0, 0, 0, 0, 0, 0] ::
        [((9 <<< 4) + 7) :: (set_vfd_text_handler screen buf count).screen.take 7,
         ((9 <<< 4) + 7) ::
           ((set_vfd_text_handler screen buf count).screen.drop 7).take 7,
         ((9 <<< 4) + 6) ::
           (((set_vfd_text_handler screen buf count).screen.drop 14).take 6 ++ [0])] ∧
    (∀ p ∈ (set_vfd_text_handler screen buf count).sent,
      p.length = SHUTTLE_VFD_PACKET_SIZE) ∧
    ((1 <<< 4) + 1) >>> 4 = 1 ∧ ((1 <<< 4) + 1) &&& 0xF = 1 ∧
    ((9 <<< 4) + 7) >>> 4 = 9 ∧ ((9 <<< 4) + 7) &&& 0xF = 7 ∧
    ((9 <<< 4) + 6) >>> 4 = 9 ∧ ((9 <<< 4) + 6) &&& 0xF = 6 := by
  have hslen := set_vfd_text_handler_screen_length screen buf count h1 h2
  have hsent : (set_vfd_text_handler screen buf count).sent =
      vfd_reset_cursor false ::
        vfd_set_text (set_vfd_text_handler screen buf count).screen SHUTTLE_VFD_WIDTH := rfl
  rw [vfd_set_text_twenty] at hsent
  refine ⟨hsent, ?_, by decide, by decide, by decide, by decide, by decide, by decide⟩
  intro p hp
  rw [hsent] at hp
  unfold SHUTTLE_VFD_WIDTH at hslen
  simp only [List.mem_cons, List.not_mem_nil, or_false] at hp
  rcases hp with h | h | h | h
  · rw [h]; rfl
  · rw [h]
    simp only [List.length_cons, List.length_take, hslen]
    decide
  · rw [h]
    simp only [List.length_cons, List.length_take, List.length_drop, hslen]
    decide
  · rw [h]
    simp only [List.length_cons, List.length_append, List.length_take,
      List.length_drop, List.length_singleton, hslen]
    decide

/-- C4 witness: the packet-sequence theorem applied at the concrete previous
screen of 20 zero bytes and the 8-byte test 123 buffer. -/
theorem C4_text_write_packet_sequence_witness :
    (List.replicate 20 0 : List Nat).length = SHUTTLE_VFD_WIDTH ∧
    test123.length = 8 ∧
    (set_vfd_text_handler (List.replicate 20 0) test123 8).sent =
      [[17, 2, 0, 0, 0, 0, 0, 0],
       [151, 116, 101, 115, 116, 32, 49, 50],
       [151, 51, 0, 0, 0, 0, 0, 0],
       [150, 0, 0, 0, 0, 0, 0, 0]] :=
  ⟨by decide, by decide, by
    have h := (C4_text_write_packet_sequence (List.replicate 20 0) test123 8
      (by decide) (by decide)).1
    rw [h]; decide⟩

/-- Helper: the icons packet written as divisions and remainders, so that the
four data bytes are visibly the four 5-bit groups of the mask. -/
lemma vfd_set_icons_div_mod (m : Nat) :
    vfd_set_icons m =
      [(7 <<< 4) + 4, m / 2 ^ 15 % 2 ^ 5, m / 2 ^ 10 % 2 ^ 5, m / 2 ^ 5 % 2 ^ 5,
       m % 2 ^ 5, 0, 0, 0] := by
  unfold vfd_set_icons
  rw [Nat.shiftRight_eq_div_pow, Nat.shiftRight_eq_div_pow, Nat.shiftRight_eq_div_pow,
    and_0x1F_eq_mod, and_0x1F_eq_mod, and_0x1F_eq_mod, and_0x1F_eq_mod]

/-- Helper: setting a nonzero volume level on a mask holding only icon bits
yields the sum of the shifted level and the icon bits. -/
lemma vfd_led_volume_set_eq_add (icons level : Nat) (h : icons < 2 ^ 15)
    (hl : level ≠ 0) :
    vfd_led_volume_set icons level = 2 ^ 15 * level + icons := by
  unfold vfd_led_volume_set SHUTTLE_VFD_ICON_VOL SHUTTLE_VFD_BASE_MASK LED_OFF
  simp only [ne_eq, hl, not_false_eq_true, if_true, if_pos]
  rw [and_0x7FFF_eq_mod, Nat.mod_eq_of_lt h, Nat.shiftLeft_eq, Nat.lor_comm,
    Nat.mul_comm level (2 ^ 15)]
  exact (Nat.mul_add_lt_is_or h level).symm

/-- Helper: setting volume level 0 on a mask holding only icon bits leaves the
mask unchanged. -/
lemma vfd_led_volume_set_zero (icons : Nat) (h : icons < 2 ^ 15) :
    vfd_led_volume_set icons 0 = icons := by
  unfold vfd_led_volume_set SHUTTLE_VFD_BASE_MASK LED_OFF
  simp only [ne_eq, not_true_eq_false, if_false]
  rw [and_0x7FFF_eq_mod, Nat.mod_eq_of_lt h]

/-- C3: for every icon bit position pos in 0..14, encoding the mask with only
bit pos set puts exactly one set bit among the four data bytes, namely bit
pos mod 5 of data byte 3 - pos / 5 (data bytes counted 0..3 from packet byte
1); and for every volume level 0..12 combined with any icon bits in positions
0..14 through vfd_led_volume_set, the level lands in data byte 0 alone while
the three data bytes carrying icon bits equal those of the encoding without
volume. -/
theorem C3_bit_layout_and_volume_independence :
    (∀ pos : Fin NUM_LEDS, ∀ i : Fin 4,
      (vfd_set_icons (1 <<< pos.val)).getD (i.val + 1) 0 =
        if i.val = 3 - pos.val / 5 then 2 ^ (pos.val % 5) else 0) ∧
    (∀ level icons : Nat, level ≤ SHUTTLE_VFD_ICON_VOL_NUM → icons < 2 ^ 15 →
      (vfd_set_icons (vfd_led_volume_set icons level)).getD 1 0 = level ∧
      (vfd_set_icons (vfd_led_volume_set icons level)).getD 2 0 =
        (vfd_set_icons icons).getD 2 0 ∧
      (vfd_set_icons (vfd_led_volume_set icons level)).getD 3 0 =
        (vfd_set_icons icons).getD 3 0 ∧
      (vfd_set_icons (vfd_led_volume_set icons level)).getD 4 0 =
        (vfd_set_icons icons).getD 4 0) := by
  constructor
  · decide
  · intro level icons hlevel hicons
    unfold SHUTTLE_VFD_ICON_VOL_NUM at hlevel
    by_cases hl : level = 0
    · subst hl
      rw [vfd_led_volume_set_zero icons hicons, vfd_set_icons_div_mod]
      refine ⟨?_, rfl, rfl, rfl⟩
      show icons / 2 ^ 15 % 2 ^ 5 = 0
      rw [Nat.div_eq_of_lt hicons, Nat.zero_mod]
    · rw [vfd_led_volume_set_eq_add icons level hicons hl, vfd_set_icons_div_mod,
        vfd_set_icons_div_mod]
      norm_num at hicons ⊢
      refine ⟨?_, ?_, ?_, ?_⟩
      · show (32768 * level + icons) / 32768 % 32 = level
        omega
      · show (32768 * level + icons) / 1024 % 32 = icons / 1024 % 32
        omega
      · show (32768 * level + icons) / 32 % 32 = icons / 32 % 32
        omega
      · show (32768 * level + icons) % 32 = icons % 32
        omega

/-- C3 witness: the layout theorem applied at volume level 12 over the mask
with all 15 icon bits set: data byte 0 is 12 and the icon bytes agree with the
volume-free encoding. -/
theorem C3_bit_layout_witness :
    12 ≤ SHUTTLE_VFD_ICON_VOL_NUM ∧ (0x7FFF : Nat) < 2 ^ 15 ∧
    (vfd_set_icons (vfd_led_volume_set 0x7FFF 12)).getD 1 0 = 12 ∧
    (vfd_set_icons (vfd_led_volume_set 0x7FFF 12)).getD 2 0 =
      (vfd_set_icons 0x7FFF).getD 2 0 :=
  ⟨by decide, by decide,
    (C3_bit_layout_and_volume_independence.2 12 0x7FFF (by decide) (by decide)).1,
    (C3_bit_layout_and_volume_independence.2 12 0x7FFF (by decide) (by decide)).2.1⟩

/-- Helper: after a volume set the bits from 15 up hold exactly the raw value
passed in: the old volume field is cleared and, for a nonzero value, the value
is ored in at bit 15 with nothing above the cleared low 15 bits to disturb it. -/
lemma vfd_led_volume_set_field (icons_mask value : Nat) :
    (vfd_led_volume_set icons_mask value) >>> 15 = value := by
  have ha : icons_mask &&& 0x7FFF < 2 ^ 15 := by
    rw [and_0x7FFF_eq_mod]
    exact Nat.mod_lt _ (by norm_num)
  by_cases hv : value = 0
  · subst hv
    unfold vfd_led_volume_set LED_OFF SHUTTLE_VFD_BASE_MASK
    simp only [ne_eq, not_true_eq_false, if_false]
    rw [Nat.shiftRight_eq_div_pow, and_0x7FFF_eq_mod]
    omega
  · unfold vfd_led_volume_set LED_OFF SHUTTLE_VFD_BASE_MASK SHUTTLE_VFD_ICON_VOL
    simp only [ne_eq, hv, not_false_eq_true, if_true]
    rw [Nat.shiftLeft_eq, Nat.lor_comm, Nat.mul_comm value (2 ^ 15),
      ← Nat.mul_add_lt_is_or ha value, Nat.shiftRight_eq_div_pow, and_0x7FFF_eq_mod]
    omega

/-- Helper: a volume set leaves the 15 icon bits of icons_mask unchanged. -/
lemma vfd_led_volume_set_icons_preserved (icons_mask value : Nat) :
    (vfd_led_volume_set icons_mask value) &&& SHUTTLE_VFD_BASE_MASK =
      icons_mask &&& SHUTTLE_VFD_BASE_MASK := by
  have ha : icons_mask &&& 0x7FFF < 2 ^ 15 := by
    rw [and_0x7FFF_eq_mod]
    exact Nat.mod_lt _ (by norm_num)
  by_cases hv : value = 0
  · subst hv
    unfold vfd_led_volume_set LED_OFF SHUTTLE_VFD_BASE_MASK
    simp only [ne_eq, not_true_eq_false, if_false]
    rw [Nat.and_assoc, Nat.and_self]
  · unfold vfd_led_volume_set LED_OFF SHUTTLE_VFD_BASE_MASK SHUTTLE_VFD_ICON_VOL
    simp only [ne_eq, hv, not_false_eq_true, if_true]
    rw [Nat.shiftLeft_eq, Nat.lor_comm, Nat.mul_comm value (2 ^ 15),
      ← Nat.mul_add_lt_is_or ha value, and_0x7FFF_eq_mod, and_0x7FFF_eq_mod]
    omega

/-- Helper: setting or clearing one icon bit at a position below 15 leaves the
bits from 15 up, and with them the volume field, unchanged. -/
lemma vfd_led_generic_set_volume_preserved (icons_mask pos value : Nat)
    (hpos : pos < 15) :
    (vfd_led_generic_set icons_mask (1 <<< pos) value) >>> 15 =
      icons_mask >>> 15 := by
  have h1 : (1 : Nat) <<< pos = 2 ^ pos := by rw [Nat.shiftLeft_eq, Nat.one_mul]
  unfold vfd_led_generic_set LED_OFF
  by_cases hv : value = 0
  · subst hv
    simp only [ne_eq, not_true_eq_false, if_false]
    apply Nat.eq_of_testBit_eq
    intro i
    have h2 : ¬ (pos = 15 + i) := by omega
    simp [Nat.testBit_shiftRight, Nat.testBit_ldiff, h1, Nat.testBit_two_pow, h2]
  · simp only [ne_eq, hv, not_false_eq_true, if_true]
    apply Nat.eq_of_testBit_eq
    intro i
    have h2 : ¬ (pos = 15 + i) := by omega
    simp [Nat.testBit_shiftRight, Nat.testBit_or, h1, Nat.testBit_two_pow, h2]

/-- C7 counterexample: the claim that a volume brightness above 12 leaves the
volume field of icons_mask within 0..12 is false on the code: setting volume
brightness 15 on the empty mask puts 15 into bits 15..18. -/
theorem C7_counterexample :
    ¬ ((vfd_led_volume_set 0 15 >>> 15) &&& 0xF ≤ SHUTTLE_VFD_ICON_VOL_NUM) := by
  decide

/-- C7 (amended): on a binary icon every nonzero brightness, 15 included,
behaves exactly as brightness 1: the single endpoint bit is set and no other
bit of icons_mask changes; the volume endpoint however does not clamp: after a
set with any nonzero value the bits of icons_mask from 15 up hold the raw
value, so a value above 12, such as 15, exceeds the documented volume range. -/
theorem C7_brightness_clamping (icons_mask mask value : Nat) (hv : value ≠ 0) :
    vfd_led_generic_set icons_mask mask 15 = vfd_led_generic_set icons_mask mask 1 ∧
    vfd_led_generic_set icons_mask mask value =
      vfd_led_generic_set icons_mask mask 1 ∧
    (∀ pos j : Nat, (vfd_led_generic_set icons_mask (1 <<< pos) 15).testBit j =
      (icons_mask.testBit j || decide (j = pos))) ∧
    (vfd_led_volume_set icons_mask value) >>> 15 = value := by
  refine ⟨by simp [vfd_led_generic_set, LED_OFF],
    by simp [vfd_led_generic_set, LED_OFF, hv], ?_,
    vfd_led_volume_set_field _ _⟩
  intro pos j
  have h1 : (1 : Nat) <<< pos = 2 ^ pos := by rw [Nat.shiftLeft_eq, Nat.one_mul]
  simp [vfd_led_generic_set, LED_OFF, h1, Nat.testBit_two_pow, eq_comm]

/-- C7 witness: the clamping theorem applied at the empty mask, the icon bit
mask 8 and the out-of-range brightness 15. -/
theorem C7_brightness_clamping_witness :
    (15 : Nat) ≠ 0 ∧
    vfd_led_generic_set 0 8 15 = vfd_led_generic_set 0 8 1 ∧
    (vfd_led_volume_set 0 15) >>> 15 = 15 :=
  ⟨by decide, (C7_brightness_clamping 0 8 15 (by decide)).1,
    (C7_brightness_clamping 0 8 15 (by decide)).2.2.2⟩

/-- C8: for every prior mask state, setting or clearing a binary icon at a bit
position below 15 leaves the bits of icons_mask from 15 up, and with them the
volume field, unchanged; and a volume set clears exactly the volume field,
leaves the icon bits 0..14 unchanged, and puts the new level into the bits
from 15 up. -/
theorem C8_mask_field_separation (icons_mask pos value : Nat)
    (hpos : pos < NUM_LEDS) :
    (vfd_led_generic_set icons_mask (1 <<< pos) value) >>> 15 =
      icons_mask >>> 15 ∧
    (vfd_led_volume_set icons_mask value) &&& SHUTTLE_VFD_BASE_MASK =
      icons_mask &&& SHUTTLE_VFD_BASE_MASK ∧
    (vfd_led_volume_set icons_mask value) >>> 15 = value := by
  unfold NUM_LEDS at hpos
  exact ⟨vfd_led_generic_set_volume_preserved _ _ _ hpos,
    vfd_led_volume_set_icons_preserved _ _, vfd_led_volume_set_field _ _⟩

/-- C8 witness: the separation theorem applied at the concrete mask 0x9ABCD,
icon position 3 and brightness 1, and at volume level 5. -/
theorem C8_mask_field_separation_witness :
    (3 : Nat) < NUM_LEDS ∧
    (vfd_led_generic_set 0x9ABCD (1 <<< 3) 1) >>> 15 = (0x9ABCD : Nat) >>> 15 ∧
    (vfd_led_volume_set 0x9ABCD 5) >>> 15 = 5 :=
  ⟨by decide, (C8_mask_field_separation 0x9ABCD 3 1 (by decide)).1,
    (C8_mask_field_separation 0x9ABCD 3 5 (by decide)).2.2⟩

/-- Helper: the trim loop only inspects indices below sz, so an element
appended past that range does not change its result. -/
lemma trim_loop_append (xs : List Nat) (x : Nat) :
    ∀ sz, sz ≤ xs.length → trim_loop (xs ++ [x]) sz = trim_loop xs sz := by
  intro sz
  induction sz with
  | zero => intro _; rfl
  | succ n ih =>
    intro h
    have hn : n < xs.length := h
    simp only [trim_loop]
    rw [List.getD_append _ _ _ _ hn]
    split_ifs with hc
    · exact ih (Nat.le_of_lt hn)
    · rfl

/-- Helper: run over the whole list, the trim loop computes the length of the
reversed list with its leading run of NUL and newline bytes removed, and
underflows (none) exactly when every byte of the list is NUL or newline. -/
lemma trim_loop_eq_dropWhile (l : List Nat) :
    trim_loop l l.length =
      if (l.reverse.dropWhile fun b => b == 0 || b == 10) = [] then none
      else some (l.reverse.dropWhile fun b => b == 0 || b == 10).length := by
  induction l using List.reverseRecOn with
  | nil => rfl
  | append_singleton xs x ih =>
    have hlen : (xs ++ [x]).length = xs.length + 1 := by
      simp [List.length_append]
    rw [hlen]
    simp only [trim_loop]
    rw [List.getD_append_right xs [x] 0 xs.length (Nat.le_refl _), Nat.sub_self]
    have hrev : (xs ++ [x]).reverse = x :: xs.reverse := by
      simp [List.reverse_append]
    rw [hrev]
    by_cases hx : ([x] : List Nat).getD 0 0 = 0 ∨ ([x] : List Nat).getD 0 0 = 10
    · have hx' : x = 0 ∨ x = 10 := hx
      have hp : ((x == 0 || x == 10) = true) := by
        rcases hx' with h | h <;> simp [h]
      rw [if_pos hx, trim_loop_append xs x xs.length (Nat.le_refl _), ih,
        List.dropWhile_cons_of_pos (p := fun b => b == 0 || b == 10) hp]
    · have hx' : ¬ (x = 0 ∨ x = 10) := hx
      have hp : ¬ ((x == 0 || x == 10) = true) := by
        simpa using hx'
      rw [if_neg hx, List.dropWhile_cons_of_neg (p := fun b => b == 0 || b == 10) hp,
        if_neg (List.cons_ne_nil x xs.reverse)]
      simp [List.length_reverse]

/-- Helper: when at least one byte of a full-width screen is neither NUL nor
newline, the read handler returns the screen with its trailing NUL and
newline bytes trimmed, one newline appended, and the trimmed length plus one
as size. -/
lemma get_vfd_text_handler_eq (screen : List Nat)
    (h1 : screen.length = SHUTTLE_VFD_WIDTH)
    (h2 : (screen.reverse.dropWhile fun b => b == 0 || b == 10) ≠ []) :
    get_vfd_text_handler screen =
      some (rstrip screen ++ [10], (rstrip screen).length + 1) := by
  have hdecomp : screen = rstrip screen ++
      (screen.reverse.takeWhile fun b => b == 0 || b == 10).reverse := by
    conv_lhs => rw [← List.reverse_reverse screen,
      ← List.takeWhile_append_dropWhile (p := fun b => b == 0 || b == 10)
        (l := screen.reverse)]
    rw [List.reverse_append]
    rfl
  obtain ⟨tail, hdec⟩ : ∃ tail, screen = rstrip screen ++ tail := ⟨_, hdecomp⟩
  have hlen : (rstrip screen).length =
      (screen.reverse.dropWhile fun b => b == 0 || b == 10).length := by
    unfold rstrip
    rw [List.length_reverse]
  have htake : screen.take
      (screen.reverse.dropWhile fun b => b == 0 || b == 10).length =
        rstrip screen := by
    have h3 : screen.take
        (screen.reverse.dropWhile fun b => b == 0 || b == 10).length =
          (rstrip screen ++ tail).take (rstrip screen).length := by
      rw [← hlen]
      exact congrArg (fun l => List.take (rstrip screen).length l) hdec
    rw [h3]
    exact List.take_left _ _
  unfold get_vfd_text_handler
  rw [← h1, trim_loop_eq_dropWhile, if_neg h2]
  show some (screen.take
      (screen.reverse.dropWhile fun b => b == 0 || b == 10).length ++ [10],
      (screen.reverse.dropWhile fun b => b == 0 || b == 10).length + 1) =
    some (rstrip screen ++ [10], (rstrip screen).length + 1)
  rw [htake, ← hlen]

/-- C6 (amended): for every 20-byte screen buffer holding at least one byte
that is neither NUL nor newline, the read operation returns the buffer with
all trailing NUL and newline bytes trimmed and exactly one newline appended,
with size the trimmed length plus one; in particular after writing test 123
it returns exactly the 9 bytes of test 123 followed by a newline.  (On a
buffer of only NUL and newline bytes the trim loop underflows instead, see
the C6 counterexample and C10.) -/
theorem C6_read_trimming (screen : List Nat)
    (h1 : screen.length = SHUTTLE_VFD_WIDTH)
    (h2 : (screen.reverse.dropWhile fun b => b == 0 || b == 10) ≠ []) :
    get_vfd_text_handler screen =
      some (rstrip screen ++ [10], (rstrip screen).length + 1) ∧
    get_vfd_text_handler (test123 ++ List.replicate 12 0) =
      some (test123 ++ [10], 9) := by
  refine ⟨get_vfd_text_handler_eq screen h1 h2, ?_⟩
  decide

/-- C6 witness: the trimming theorem applied at the concrete screen produced
by writing test 123. -/
theorem C6_read_trimming_witness :
    (test123 ++ List.replicate 12 0 : List Nat).length = SHUTTLE_VFD_WIDTH ∧
    ((test123 ++ List.replicate 12 0).reverse.dropWhile
      fun b => b == 0 || b == 10) ≠ [] ∧
    get_vfd_text_handler (test123 ++ List.replicate 12 0) =
      some (rstrip (test123 ++ List.replicate 12 0) ++ [10],
        (rstrip (test123 ++ List.replicate 12 0)).length + 1) :=
  ⟨by decide, by decide,
    (C6_read_trimming (test123 ++ List.replicate 12 0) (by decide) (by decide)).1⟩

end ShuttleLeds
